import Mathlib

/-!
Verification of the stream-orchestration core of the platflow-fe-builder
repository. The authoritative source is the builder route (the `builderAction`
handler): it parses the request body, creates a `SwitchableStream`, and runs a
data-stream `execute` callback that performs three sequential stages — an
optional backend-builder call, an optional chat-summary call, and the text
generation stage — writing progress records and message annotations, threading
a per-request `progressCounter` and a `cumulativeUsage` accumulator.

The embedding below models the observable writes (`writeData` /
`writeMessageAnnotation` calls) as a list of `Event`s, the logger calls as a
list of strings, and the outcomes of the three external collaborators (builder
fetch, summary generator, text generator) as an `Env` oracle record, since
those collaborators live outside this repository.
-/

namespace Platflow

/-- A conversation message: role and other fields are irrelevant to the core;
only `content` (concatenated for a debug log) and the optional `id` (used as
`chatId` in annotations via `messages.slice(-1)?.[0]?.id`) matter. -/
structure Message where
  id : Option String := none
  content : String := ""
deriving DecidableEq, Repr

/-- The optional builder configuration from the request body:
`{ backendUrl, apiKey?, options? }`. -/
structure BuilderConfig where
  backendUrl : String
  apiKey : Option String := none
deriving DecidableEq, Repr

/-- A usage report from a stage, mirroring the JS object whose fields may each
be missing (the code reads `usage.completionTokens || 0` etc.). -/
structure Usage where
  completionTokens : Option Nat := none
  promptTokens : Option Nat := none
  totalTokens : Option Nat := none
deriving DecidableEq, Repr

/-- The `cumulativeUsage` accumulator initialised to zeroes at the top of the
handler. -/
structure CumulativeUsage where
  completionTokens : Nat
  promptTokens : Nat
  totalTokens : Nat
deriving DecidableEq, Repr

/-- The accumulator's initial value `{ completionTokens: 0, promptTokens: 0,
totalTokens: 0 }`. -/
def CumulativeUsage.init : CumulativeUsage :=
  { completionTokens := 0, promptTokens := 0, totalTokens := 0 }

/-- One `if (usage) { cumulativeUsage.x += usage.x || 0; ... }` step: a missing
report contributes nothing, a present report contributes each field with a
zero default. -/
def CumulativeUsage.add (c : CumulativeUsage) (u : Option Usage) : CumulativeUsage :=
  match u with
  | none => c
  | some u =>
    { completionTokens := c.completionTokens + u.completionTokens.getD 0
      promptTokens := c.promptTokens + u.promptTokens.getD 0
      totalTokens := c.totalTokens + u.totalTokens.getD 0 }

/-- An observable record written to the data stream:
`progress` is a `writeData` of a ProgressAnnotation-shaped object;
`contextData` is the `writeMessageAnnotation({ type: 'contextData', summary,
chatId })` emitted on builder success; `chatSummary` is the
`writeMessageAnnotation({ type: 'chatSummary', summary, chatId })` emitted by
the summary stage (its `chatId` has no fallback and may be undefined, hence
`Option String`); `usageAnn` is the `writeMessageAnnotation({ type: 'usage',
value })` emitted in the generation `onFinish`. -/
inductive Event where
  | progress (label : String) (status : String) (order : Nat) (message : String)
  | contextData (summary : String) (chatId : String)
  | chatSummary (summary : String) (chatId : Option String)
  | usageAnn (completionTokens : Nat) (promptTokens : Nat) (totalTokens : Nat)
deriving DecidableEq, Repr

/-- Outcome of the `fetch(builderConfig.backendUrl, ...)` call: `ok data`
stands for a 2xx response whose JSON body parsed, with `data` the
`JSON.stringify(builderData)` string; `errStatus` for a non-2xx response
(which the code turns into a thrown Error whose message embeds the status);
`errTransport msg` for any other thrown error with message `msg` (a transport
failure, a body-parse failure, or the 'Unknown error' text for a non-Error
throw). -/
inductive BuilderResponse where
  | ok (data : String)
  | errStatus (status : Nat)
  | errTransport (msg : String)
deriving DecidableEq, Repr

/-- Outcome of the `createSummary` call: the summary text and the optional
usage report its `onFinish` callback receives. -/
structure SummaryResult where
  summary : String
  usage : Option Usage := none
deriving DecidableEq, Repr

/-- Oracle for the three external collaborators of one request: the builder
fetch outcome, the summary generator outcome, and the text generator's
terminal `finishReason` and optional usage report. -/
structure Env where
  builderResponse : BuilderResponse
  summaryResult : SummaryResult
  genFinishReason : String
  genUsage : Option Usage
deriving DecidableEq, Repr

/-- The request body fields the core reads: `messages`, the file paths
extracted by `getFilePaths(files || {})` (an external helper, so the path list
is taken directly), the `contextOptimization` flag, and the optional
`builderConfig`. -/
structure BuilderRequest where
  messages : List Message
  filePaths : List String
  contextOptimization : Bool
  builderConfig : Option BuilderConfig := none
deriving DecidableEq, Repr

/-- The guard `if (builderConfig?.backendUrl)`: the builder stage runs only
when a configuration is present and its `backendUrl` is a truthy (non-empty)
string. -/
def builderEnabled (req : BuilderRequest) : Bool :=
  match req.builderConfig with
  | some cfg => !(cfg.backendUrl == "")
  | none => false

/-- The guard `if (filePaths.length > 0 && contextOptimization)`. -/
def summaryEnabled (req : BuilderRequest) : Bool :=
  !req.filePaths.isEmpty && req.contextOptimization

/-- The expression `messages.slice(-1)?.[0]?.id`: the id of the last message,
absent when the conversation is empty or the last message has no id. -/
def lastMessageId (msgs : List Message) : Option String :=
  msgs.getLast?.bind fun m => m.id

/-- The truncation marker: `let messageSliceId = 0; if (messages.length > 3)
{ messageSliceId = messages.length - 3; }`. -/
def messageSliceId (msgs : List Message) : Nat :=
  if msgs.length > 3 then msgs.length - 3 else 0

/-- The error detail interpolated into the builder failure progress message
(`error instanceof Error ? error.message : 'Unknown error'`; a non-2xx
response was first thrown as an Error with the status in its message). -/
def builderErrDetail : BuilderResponse → String
  | .ok _ => ""
  | .errStatus st => "Builder server returned status " ++ toString st
  | .errTransport msg => msg

/-- Whether the builder fetch outcome takes the catch branch. -/
def builderFailed : BuilderResponse → Bool
  | .ok _ => false
  | .errStatus _ => true
  | .errTransport _ => true

/-- Events, logs, and next counter value produced by one stage. -/
structure BuilderOut where
  events : List Event
  logs : List String
  next : Nat
deriving DecidableEq, Repr

/-- The builder stage body (entered only under `builderEnabled`): emit
progress(builder, in-progress), call the backend; on success write the
`contextData` annotation (chatId falling back to the empty string) and
progress(builder, complete); on any failure log the error and emit
progress(builder, in-progress) carrying the error detail. -/
def builderPhase (msgs : List Message) (resp : BuilderResponse) (c : Nat) : BuilderOut :=
  match resp with
  | .ok data =>
    { events := [Event.progress "builder" "in-progress" c "Connecting to builder server",
                 Event.contextData data ((lastMessageId msgs).getD ""),
                 Event.progress "builder" "complete" (c + 1) "Builder server processing complete"]
      logs := ["Calling backend builder server"]
      next := c + 2 }
  | .errStatus st =>
    { events := [Event.progress "builder" "in-progress" c "Connecting to builder server",
                 Event.progress "builder" "in-progress" (c + 1)
                   ("Builder server error: " ++ ("Builder server returned status " ++ toString st))]
      logs := ["Calling backend builder server", "Error calling builder server"]
      next := c + 2 }
  | .errTransport msg =>
    { events := [Event.progress "builder" "in-progress" c "Connecting to builder server",
                 Event.progress "builder" "in-progress" (c + 1)
                   ("Builder server error: " ++ msg)]
      logs := ["Calling backend builder server", "Error calling builder server"]
      next := c + 2 }

/-- Events, logs, next counter, updated accumulator and captured summary
produced by the summary stage. -/
structure SummaryOut where
  events : List Event
  logs : List String
  next : Nat
  usage : CumulativeUsage
  summary : Option String
deriving DecidableEq, Repr

/-- The summary stage body (entered only under `summaryEnabled`): emit
progress(summary, in-progress), run `createSummary` whose `onFinish` feeds the
accumulator (and logs the usage only when a report is present), then emit
progress(summary, complete) followed by the `chatSummary` annotation whose
`chatId` has no fallback. -/
def summaryPhase (msgs : List Message) (sr : SummaryResult) (c : Nat)
    (u : CumulativeUsage) : SummaryOut :=
  { events := [Event.progress "summary" "in-progress" c "Analysing Request",
               Event.progress "summary" "complete" (c + 1) "Analysis Complete",
               Event.chatSummary sr.summary (lastMessageId msgs)]
    logs := ["Generating Chat Summary", "Messages count: " ++ toString msgs.length] ++
      (match sr.usage with
       | some _ => ["createSummary token usage"]
       | none => [])
    next := c + 2
    usage := u.add sr.usage
    summary := some sr.summary }

/-- Events, logs and next counter produced by the generation stage. -/
structure GenOut where
  events : List Event
  logs : List String
  next : Nat
deriving DecidableEq, Repr

/-- The generation stage: emit progress(response, in-progress), call
`streamText`; its `onFinish` logs the usage, merges it into the accumulator,
and — only when `finishReason !== 'length'` — writes the `usage` annotation
with the accumulated totals and progress(response, complete). A finish reason
of 'length' falls through to a comment and does nothing further. -/
def generationPhase (finishReason : String) (genUsage : Option Usage) (c : Nat)
    (u : CumulativeUsage) : GenOut :=
  let u2 := u.add genUsage
  if finishReason == "length" then
    { events := [Event.progress "response" "in-progress" c "Generating Response"]
      logs := ["usage"]
      next := c + 1 }
  else
    { events := [Event.progress "response" "in-progress" c "Generating Response",
                 Event.usageAnn u2.completionTokens u2.promptTokens u2.totalTokens,
                 Event.progress "response" "complete" (c + 1) "Response Generated"]
      logs := ["usage"]
      next := c + 2 }

/-- The observable result of the `execute` callback: the ordered events
written to the data stream, the log lines, and the arguments handed to the
generation stage. -/
structure ExecResult where
  events : List Event
  logs : List String
  genSliceId : Nat
  genSummary : Option String
deriving DecidableEq, Repr

/-- The `execute(dataStream)` callback of `createDataStream`: a debug log of
the word count of the concatenated message contents, then the optional
builder stage, the optional summary stage, and the generation stage, with
`progressCounter` starting at 1 and `cumulativeUsage` starting at zero and
threaded through the stages in that order. -/
def execute (req : BuilderRequest) (env : Env) : ExecResult :=
  let totalMessageContent := req.messages.foldl (fun acc m => acc ++ m.content) ""
  let lengthLog := "Total message length: " ++
    toString ((totalMessageContent.splitOn " ").length) ++ ", words"
  let b : BuilderOut :=
    if builderEnabled req then builderPhase req.messages env.builderResponse 1
    else { events := [], logs := [], next := 1 }
  let s : SummaryOut :=
    if summaryEnabled req then
      summaryPhase req.messages env.summaryResult b.next CumulativeUsage.init
    else
      { events := [], logs := [], next := b.next, usage := CumulativeUsage.init,
        summary := none }
  let g : GenOut := generationPhase env.genFinishReason env.genUsage s.next s.usage
  { events := b.events ++ s.events ++ g.events
    logs := lengthLog :: (b.logs ++ s.logs ++ g.logs)
    genSliceId := messageSliceId req.messages
    genSummary := s.summary }

/-- The `order` fields of the progress records of a trace, in emission
order. -/
def progressOrders : List Event → List Nat
  | [] => []
  | Event.progress _ _ o _ :: rest => o :: progressOrders rest
  | _ :: rest => progressOrders rest

/-- Whether an event is the usage annotation. -/
def isUsageAnn : Event → Bool
  | .usageAnn _ _ _ => true
  | _ => false

/-- Whether an event is a progress record with label "response" and status
"complete". -/
def isResponseComplete : Event → Bool
  | .progress l s _ _ => l == "response" && s == "complete"
  | _ => false

/-- Whether an event belongs to the builder stage: a progress record labelled
"builder" or the builder-result (`contextData`) annotation. -/
def isBuilderEvent : Event → Bool
  | .progress l _ _ _ => l == "builder"
  | .contextData _ _ => true
  | _ => false

/-- Whether an event belongs to the summary stage: a progress record labelled
"summary" or the `chatSummary` annotation. -/
def isSummaryEvent : Event → Bool
  | .progress l _ _ _ => l == "summary"
  | .chatSummary _ _ => true
  | _ => false

/-- The field-wise sum of the usage reports of the stages that ran: the
summary stage's report counts only when that stage ran, the generation
stage's report always; a missing report contributes zero. -/
def expectedUsage (req : BuilderRequest) (env : Env) : CumulativeUsage :=
  (CumulativeUsage.init.add
    (if summaryEnabled req then env.summaryResult.usage else none)).add env.genUsage

/-- Result of parsing the request body: `await request.json<...>()` either
rejects with a parse error or yields the typed body. -/
inductive BodyParse where
  | malformed (msg : String)
  | parsed (body : BuilderRequest)
deriving DecidableEq, Repr

/-- What the handler produces: a streaming 200 response, the catch block's
JSON error response `{ error }` with status 500, or an exception that
propagates out of the handler uncaught. -/
inductive ActionResult where
  | streamResponse (res : ExecResult)
  | jsonError (error : String) (status : Nat)
  | thrown (msg : String)
deriving DecidableEq, Repr

/-- Whether an action result is the catch block's JSON error response. -/
def isJsonError : ActionResult → Bool
  | .jsonError _ _ => true
  | _ => false

/-- The `builderAction` handler. In the source, `await request.json<...>()`
sits before the `try` block, so a body that fails JSON parsing propagates as
a thrown error out of the handler; the catch block producing the
`{ error }` JSON response with status 500 covers only failures raised inside
the `try` (modelled by the `setupFailure` oracle: a synchronous throw during
stream setup, before the streaming Response is returned). -/
def builderAction : BodyParse → Option String → Env → ActionResult
  | .malformed msg, _, _ => .thrown msg
  | .parsed _, some msg, _ => .jsonError msg 500
  | .parsed body, none, env => .streamResponse (execute body env)

/-- Modelled from the spec: the implementation of `SwitchableStream`
(imported from `~/lib/.server/llm/switchable-stream`) is not among the source
files — only its construction and the `switchSource(textStream)` call appear.
Following the specification, the stream is modelled by the list of items
already forwarded to its output; a source is the list of items it produces;
`switchSource` forwards the new source's entire production after everything
already forwarded, leaving prior output undisturbed. -/
structure SwitchableStream where
  forwarded : List String
deriving DecidableEq, Repr

/-- Modelled from the spec: `switchSource(newSource)` redirects all subsequent
forwarding from `newSource` into the output, after the bytes already
forwarded from prior sources. -/
def SwitchableStream.switchSource (s : SwitchableStream) (newSource : List String) :
    SwitchableStream :=
  { forwarded := s.forwarded ++ newSource }

/-- A signal the text-stream pump sends its controller: a chunk enqueue or the
end-of-data `controller.close()`. -/
inductive StreamSignal where
  | enqueue (chunk : String)
  | closeSignal
deriving DecidableEq, Repr

/-- The ReadableStream pump over the generator's stream, on its normal path:
for each part the extracted text (modelled as the already-extracted string,
empty when the part carries no text) is enqueued only when non-empty, and once
the generator's stream is exhausted the controller is closed — unconditionally,
whatever finish reason the generator reported. The throwing path
(`controller.error`) applies only when the generator's stream itself fails,
before any finish callback runs, and is not modelled here. -/
def textStreamSignals (parts : List String) : List StreamSignal :=
  (parts.filter (fun c => !(c == ""))).map StreamSignal.enqueue ++
    [StreamSignal.closeSignal]

/-- Modelled from the spec: implicit completion of the Switchable Output
Stream — `SwitchableStream`'s implementation is not among the source files,
and per the specification, once the active source signals end-of-data the
output signals end-of-data to its consumer. The output stream the response
body reads is therefore closed exactly when the source switched in by
`switchSource` has sent its close signal. -/
def outputClosed (signals : List StreamSignal) : Bool :=
  signals.contains StreamSignal.closeSignal

/-- Sample request with both optional stages disabled, used to instantiate
theorems at concrete inputs. -/
def reqPlain : BuilderRequest :=
  { messages := [], filePaths := [], contextOptimization := false,
    builderConfig := none }

/-- Sample request with a builder backend configured. -/
def reqWithBuilder : BuilderRequest :=
  { messages := [], filePaths := [], contextOptimization := false,
    builderConfig := some { backendUrl := "http://builder.local", apiKey := none } }

/-- Sample request enabling the summary stage. -/
def reqWithSummary : BuilderRequest :=
  { messages := [], filePaths := ["index.ts"], contextOptimization := true,
    builderConfig := none }

/-- Sample environment where generation finishes with reason "stop" and no
stage reports usage. -/
def envStop : Env :=
  { builderResponse := .errTransport "", summaryResult := { summary := "" },
    genFinishReason := "stop", genUsage := none }

/-- Sample environment where the summary stage reports usage (1, 2, 3) and the
generation stage reports usage (10, 20, 30). -/
def envUsage : Env :=
  { builderResponse := .errTransport ""
    summaryResult :=
      { summary := "s"
        usage := some
          { completionTokens := some 1, promptTokens := some 2, totalTokens := some 3 } }
    genFinishReason := "stop"
    genUsage := some
      { completionTokens := some 10, promptTokens := some 20, totalTokens := some 30 } }

/-- Sample environment where the builder call returns status 500. -/
def envBuilderFail : Env :=
  { builderResponse := .errStatus 500, summaryResult := { summary := "" },
    genFinishReason := "stop", genUsage := none }

/-- Sample environment where the builder call succeeds with payload "{}". -/
def envBuilderOk : Env :=
  { builderResponse := .ok "\x7b\x7d", summaryResult := { summary := "" },
    genFinishReason := "stop", genUsage := none }

end Platflow

namespace Platflow

/-- Helper: the slice id handed to the generation stage is `messageSliceId` of
the conversation, independent of the environment. -/
theorem execute_genSliceId (req : BuilderRequest) (env : Env) :
    (execute req env).genSliceId = messageSliceId req.messages := rfl

/-- C1: switching the source of a Switchable Output Stream keeps every item
already forwarded from prior sources, in their original order and position,
followed immediately by exactly the items the new source produces — no gap,
no duplication (witnessed by the count equation). -/
theorem switchSource_preserves_output (s : SwitchableStream) (ns : List String) :
    (s.switchSource ns).forwarded = s.forwarded ++ ns ∧
    (s.switchSource ns).forwarded.take s.forwarded.length = s.forwarded ∧
    (s.switchSource ns).forwarded.drop s.forwarded.length = ns ∧
    ∀ a, (s.switchSource ns).forwarded.count a = s.forwarded.count a + ns.count a := by
  refine ⟨rfl, ?_, ?_, ?_⟩
  · simp [SwitchableStream.switchSource]
  · simp [SwitchableStream.switchSource]
  · intro a
    simp [SwitchableStream.switchSource, List.count_append]

/-- C7: the `messageSliceId` passed to the generation stage equals
`max(0, messageCount - 3)`; in particular 5 messages give 2 and 2 messages
give 0. -/
theorem messageSliceId_max (req : BuilderRequest) (env : Env) :
    ((execute req env).genSliceId : Int) = max 0 ((req.messages.length : Int) - 3) ∧
    (req.messages.length = 5 → (execute req env).genSliceId = 2) ∧
    (req.messages.length = 2 → (execute req env).genSliceId = 0) := by
  rw [execute_genSliceId]
  unfold messageSliceId
  by_cases h : req.messages.length > 3
  · simp only [h, if_true]
    refine ⟨?_, ?_, ?_⟩
    · rw [max_eq_right (by omega : (0 : Int) ≤ (req.messages.length : Int) - 3)]
      omega
    · intro h5; omega
    · intro h2; omega
  · simp only [h, if_false]
    refine ⟨?_, ?_, ?_⟩
    · rw [max_eq_left (by omega : ((req.messages.length : Int) - 3) ≤ 0)]
      rfl
    · intro h5; omega
    · intro h2; trivial

/-- Witness for C7: a 5-message conversation yields slice id 2 and a 2-message
conversation yields slice id 0. -/
theorem messageSliceId_max_witness :
    (execute
      { messages := List.replicate 5 { id := none, content := "" }, filePaths := [],
        contextOptimization := false, builderConfig := none }
      { builderResponse := .errTransport "", summaryResult := { summary := "" },
        genFinishReason := "stop", genUsage := none }).genSliceId = 2 ∧
    (execute
      { messages := List.replicate 2 { id := none, content := "" }, filePaths := [],
        contextOptimization := false, builderConfig := none }
      { builderResponse := .errTransport "", summaryResult := { summary := "" },
        genFinishReason := "stop", genUsage := none }).genSliceId = 0 := by
  constructor
  · exact (messageSliceId_max _ _).2.1 (by decide)
  · exact (messageSliceId_max _ _).2.2 (by decide)

end Platflow

namespace Platflow

/-- C9: the `order` values of the progress records actually emitted form the
contiguous sequence 1, 2, ..., n with no gaps at all, even when optional
stages are skipped, because the counter advances only when a record is
emitted. -/
theorem progress_orders_contiguous (req : BuilderRequest) (env : Env) :
    progressOrders (execute req env).events =
      List.range' 1 (progressOrders (execute req env).events).length := by
  cases hb : builderEnabled req <;> cases hs : summaryEnabled req <;>
    cases hfr : env.genFinishReason == "length" <;> cases hr : env.builderResponse <;>
      simp [execute, builderPhase, summaryPhase, generationPhase, progressOrders,
        hb, hs, hfr, hr] <;> decide

/-- C2: across every progress record of one request the `order` values are
strictly increasing (hence never reused) and the sequence starts at 1. -/
theorem progress_orders_strictly_increasing (req : BuilderRequest) (env : Env) :
    (progressOrders (execute req env).events).head? = some 1 ∧
    List.Pairwise (· < ·) (progressOrders (execute req env).events) := by
  cases hb : builderEnabled req <;> cases hs : summaryEnabled req <;>
    cases hfr : env.genFinishReason == "length" <;> cases hr : env.builderResponse <;>
      simp [execute, builderPhase, summaryPhase, generationPhase, progressOrders,
        hb, hs, hfr, hr]

end Platflow

namespace Platflow

/-- C3 (amended): for every request reaching the generation finish callback,
the Usage Annotation with the accumulated totals and the progress record with
label "response" and status "complete" are emitted, and the output stream
closes, if and only if the generator's finish reason differs from "length" —
and moreover the output stream closes unconditionally (the pump closes its
controller once the generator's stream is exhausted, for every finish reason,
and the Switchable Output Stream completes when its active source signals
end-of-data), so the biconditional holds only because the emissions are absent
in the "length" case, which is silently dropped. -/
theorem usage_and_complete_iff_not_length (req : BuilderRequest) (env : Env)
    (parts : List String) :
    (((execute req env).events.any isUsageAnn = true ∧
      (execute req env).events.any isResponseComplete = true ∧
      outputClosed (textStreamSignals parts) = true) ↔
        env.genFinishReason ≠ "length") ∧
    outputClosed (textStreamSignals parts) = true := by
  have hclose : outputClosed (textStreamSignals parts) = true := by
    simp [outputClosed, textStreamSignals]
  refine ⟨?_, hclose⟩
  by_cases h : env.genFinishReason = "length"
  · have hfr : (env.genFinishReason == "length") = true := by simp [h]
    cases hb : builderEnabled req <;> cases hs : summaryEnabled req <;>
      cases hr : env.builderResponse <;>
        simp [execute, builderPhase, summaryPhase, generationPhase, isUsageAnn,
          isResponseComplete, hb, hs, hfr, hr, h]
  · have hfr : (env.genFinishReason == "length") = false := by simp [h]
    cases hb : builderEnabled req <;> cases hs : summaryEnabled req <;>
      cases hr : env.builderResponse <;>
        simp [execute, builderPhase, summaryPhase, generationPhase, isUsageAnn,
          isResponseComplete, hb, hs, hfr, hr, h, hclose]

/-- C3 (counterexample): with a finish reason of "length" the orchestrator
emits nothing after the "response in-progress" record — no usage annotation,
no completion record, no truncation notice of any kind — so the signal is
silently dropped, contradicting the claim that it is not. -/
theorem finish_length_silently_dropped :
    (execute
      { messages := [], filePaths := [], contextOptimization := false,
        builderConfig := none }
      { builderResponse := .errTransport "", summaryResult := { summary := "" },
        genFinishReason := "length", genUsage := none }).events =
      [Event.progress "response" "in-progress" 1 "Generating Response"] := by
  decide

end Platflow

namespace Platflow

/-- C4: the totals carried by the emitted Usage Annotation equal the
field-wise sum of the usage reports of the stages that ran (summary only when
it ran, generation always), a skipped stage or a missing report contributing
zero to each field. -/
theorem usage_totals_sum (req : BuilderRequest) (env : Env)
    (h : env.genFinishReason ≠ "length") :
    Event.usageAnn (expectedUsage req env).completionTokens
        (expectedUsage req env).promptTokens
        (expectedUsage req env).totalTokens ∈ (execute req env).events ∧
    ∀ c p t, Event.usageAnn c p t ∈ (execute req env).events →
      c = (expectedUsage req env).completionTokens ∧
      p = (expectedUsage req env).promptTokens ∧
      t = (expectedUsage req env).totalTokens := by
  have hfr : (env.genFinishReason == "length") = false := by simp [h]
  cases hb : builderEnabled req <;> cases hs : summaryEnabled req <;>
    cases hr : env.builderResponse <;>
      simp [execute, builderPhase, summaryPhase, generationPhase, expectedUsage,
        CumulativeUsage.add, hb, hs, hfr, hr]

/-- Witness for C4: a request running the summary stage whose report is
(1, 2, 3) and whose generation report is (10, 20, 30) emits the usage
annotation (11, 22, 33). -/
theorem usage_totals_sum_witness :
    envUsage.genFinishReason ≠ "length" ∧
    Event.usageAnn 11 22 33 ∈ (execute reqWithSummary envUsage).events := by
  refine ⟨by decide, ?_⟩
  exact (usage_totals_sum reqWithSummary envUsage (by decide)).1

/-- C5: when the builder stage runs and its call fails, the error is logged,
a progress record with label "builder", status "in-progress" and the error
detail as message is emitted, and the pipeline still reaches and completes the
generation stage: the usage annotation and the "response"/"complete" progress
record still appear. -/
theorem builder_failure_degrades (req : BuilderRequest) (env : Env)
    (hb : builderEnabled req = true)
    (hf : builderFailed env.builderResponse = true)
    (hg : env.genFinishReason ≠ "length") :
    "Error calling builder server" ∈ (execute req env).logs ∧
    Event.progress "builder" "in-progress" 2
      ("Builder server error: " ++ builderErrDetail env.builderResponse) ∈
        (execute req env).events ∧
    (execute req env).events.any isUsageAnn = true ∧
    (∃ o, Event.progress "response" "complete" o "Response Generated" ∈
      (execute req env).events) := by
  have hfr : (env.genFinishReason == "length") = false := by simp [hg]
  cases hr : env.builderResponse with
  | ok d => simp [builderFailed, hr] at hf
  | errStatus st =>
    cases hs : summaryEnabled req <;>
      simp [execute, builderPhase, summaryPhase, generationPhase, builderErrDetail,
        isUsageAnn, hb, hs, hfr, hr]
  | errTransport m =>
    cases hs : summaryEnabled req <;>
      simp [execute, builderPhase, summaryPhase, generationPhase, builderErrDetail,
        isUsageAnn, hb, hs, hfr, hr]

/-- Witness for C5: with a backend URL configured and the builder returning
status 500, the error is logged, the degraded progress record appears, and the
generation stage still produces the usage annotation and the completion
record. -/
theorem builder_failure_degrades_witness :
    builderEnabled reqWithBuilder = true ∧
    ("Error calling builder server" ∈ (execute reqWithBuilder envBuilderFail).logs ∧
      Event.progress "builder" "in-progress" 2
        ("Builder server error: " ++ builderErrDetail envBuilderFail.builderResponse) ∈
          (execute reqWithBuilder envBuilderFail).events ∧
      (execute reqWithBuilder envBuilderFail).events.any isUsageAnn = true ∧
      (∃ o, Event.progress "response" "complete" o "Response Generated" ∈
        (execute reqWithBuilder envBuilderFail).events)) := by
  refine ⟨by decide, ?_⟩
  exact builder_failure_degrades reqWithBuilder envBuilderFail
    (by decide) (by decide) (by decide)

/-- C6: a request without a builder configuration produces no event of the
builder stage (no progress record labelled "builder" and no builder-result
annotation), and a request with no file paths or with context optimization
disabled produces no event of the summary stage (no progress record labelled
"summary" and no chat-summary annotation). -/
theorem optional_stages_silent (req : BuilderRequest) (env : Env) :
    (req.builderConfig = none →
      (execute req env).events.any isBuilderEvent = false) ∧
    (req.filePaths = [] ∨ req.contextOptimization = false →
      (execute req env).events.any isSummaryEvent = false) := by
  constructor
  · intro h
    have hb : builderEnabled req = false := by simp [builderEnabled, h]
    cases hs : summaryEnabled req <;> cases hfr : env.genFinishReason == "length" <;>
      simp [execute, builderPhase, summaryPhase, generationPhase, isBuilderEvent,
        hb, hs, hfr]
  · intro h
    have hs : summaryEnabled req = false := by
      rcases h with h | h <;> simp [summaryEnabled, h]
    cases hb : builderEnabled req <;> cases hfr : env.genFinishReason == "length" <;>
      cases hr : env.builderResponse <;>
        simp [execute, builderPhase, summaryPhase, generationPhase, isSummaryEvent,
          hb, hs, hfr, hr]

/-- Witness for C6: a request with no builder configuration, no file paths and
context optimization disabled emits no builder event and no summary event. -/
theorem optional_stages_silent_witness :
    (execute reqPlain envStop).events.any isBuilderEvent = false ∧
    (execute reqPlain envStop).events.any isSummaryEvent = false := by
  constructor
  · exact (optional_stages_silent reqPlain envStop).1 rfl
  · exact (optional_stages_silent reqPlain envStop).2 (Or.inl rfl)

end Platflow

namespace Platflow

/-- C10: when the builder stage runs and succeeds, the builder-result
annotation's `chatId` is the id of the last message with an empty-string
fallback (so it is "" for an empty conversation or a last message without an
id), while the chat-summary annotation's `chatId` is the last message id with
no fallback, hence absent in those same cases. -/
theorem chatId_fallback (req : BuilderRequest) (env : Env) (d : String)
    (hb : builderEnabled req = true)
    (hok : env.builderResponse = .ok d) :
    Event.contextData d ((lastMessageId req.messages).getD "") ∈
      (execute req env).events ∧
    (∀ s cid, Event.contextData s cid ∈ (execute req env).events →
      cid = (lastMessageId req.messages).getD "") ∧
    (∀ s cid, Event.chatSummary s cid ∈ (execute req env).events →
      cid = lastMessageId req.messages) ∧
    (lastMessageId req.messages = none →
      (lastMessageId req.messages).getD "" = "") := by
  cases hs : summaryEnabled req <;> cases hfr : env.genFinishReason == "length" <;>
    simp [execute, builderPhase, summaryPhase, generationPhase, hb, hs, hfr, hok] <;>
      (intro h; simp [h])

/-- Witness for C10: with a builder configured, an empty conversation and a
successful builder call, the builder-result annotation carries chatId "". -/
theorem chatId_fallback_witness :
    builderEnabled reqWithBuilder = true ∧
    Event.contextData "\x7b\x7d" "" ∈ (execute reqWithBuilder envBuilderOk).events := by
  refine ⟨by decide, ?_⟩
  exact (chatId_fallback reqWithBuilder envBuilderOk "\x7b\x7d" (by decide) rfl).1

/-- C8 (counterexample): a request body that fails JSON parsing throws out of
the handler — `await request.json()` sits before the `try` block — so the
endpoint does not respond with the `{ error }` JSON object in that case,
contradicting the claim that every malformed body yields the JSON error
response. -/
theorem malformed_body_not_json_error :
    builderAction (.malformed "Unexpected end of JSON input") none envStop =
      .thrown "Unexpected end of JSON input" ∧
    isJsonError
      (builderAction (.malformed "Unexpected end of JSON input") none envStop) =
        false := by
  exact ⟨rfl, rfl⟩

/-- C8 (amended): a failure raised inside the handler's `try` block — stream
construction failing after the body parsed and before any byte is exposed —
produces the single JSON object `{ error }` with status 500 and no stream;
a body that fails JSON parsing instead propagates as a thrown error out of the
handler, because the body is parsed before the `try` block begins. -/
theorem pre_stream_error_responses (p : BodyParse) (sf : Option String) (env : Env) :
    (∀ body msg, p = .parsed body → sf = some msg →
      builderAction p sf env = .jsonError msg 500) ∧
    (∀ msg, p = .malformed msg → builderAction p sf env = .thrown msg) := by
  constructor
  · intro body msg hp hsf
    subst hp; subst hsf; rfl
  · intro msg hp
    subst hp; rfl

/-- Witness for C8 (amended): a parsed body with a stream-setup failure yields
the JSON error response with status 500, and a malformed body yields a thrown
error. -/
theorem pre_stream_error_responses_witness :
    builderAction (.parsed reqPlain) (some "boom") envStop = .jsonError "boom" 500 ∧
    builderAction (.malformed "bad json") (some "boom") envStop = .thrown "bad json" := by
  constructor
  · exact (pre_stream_error_responses (.parsed reqPlain) (some "boom") envStop).1
      reqPlain "boom" rfl rfl
  · exact (pre_stream_error_responses (.malformed "bad json") (some "boom") envStop).2
      "bad json" rfl

end Platflow
